import Mathlib

/-!
Shallow embedding of the `aws-bedrock-usage` document pipeline
(`lambda-layer-1` ingestion, `lambda-layer-2` analysis, `lambda-layer-3`
research, `lambda-layer-4` report generation) and of the
`strands_agents/using_multiple_agents.py` crawl tool.

Python machine-level behaviour is embedded as follows: byte strings are
`List Byte` (`Byte := Fin 256`); `dict` stores are association lists;
exceptions are `Except String`; calls into foreign libraries (boto3, PyPDF2,
python-docx, requests, Bedrock) are oracle fields of an environment
structure, so every theorem quantifies over all behaviours of those
libraries.  The MD5 digest used by session-id generation is implemented in
full over `Nat` with explicit reduction modulo 2^32.
-/

/-! ## Bytes, Python string helpers -/

abbrev Byte := Fin 256

/-- Python `str.startswith`, via character lists. -/
def pyStartswith (s p : String) : Bool := p.data.isPrefixOf s.data

/-- Python `str.endswith`, via character lists. -/
def pyEndswith (s p : String) : Bool := p.data.isSuffixOf s.data

/-- Python `s[-n:]`: the last `n` characters (the whole string when shorter). -/
def pyLastChars (n : Nat) (s : String) : String := ⟨s.data.drop (s.data.length - n)⟩

/-- Python `str.lower()`, via character lists. -/
def pyLower (s : String) : String := ⟨s.data.map Char.toLower⟩

/-- Python `c in s` for a character, via character lists. -/
def pyContains (s : String) (c : Char) : Bool := s.data.contains c

/-- Python `s[:n]`, via character lists. -/
def pyTake (s : String) (n : Nat) : String := ⟨s.data.take n⟩

/-- Auxiliary recursion of `pySplitChar`. -/
def splitOnCharAux (c : Char) : List Char → List Char → List String
  | [], cur => [⟨cur.reverse⟩]
  | x :: rest, cur =>
    if x = c then ⟨cur.reverse⟩ :: splitOnCharAux c rest []
    else splitOnCharAux c rest (x :: cur)

/-- Python `s.split(c)` with a one-character separator. -/
def pySplitChar (s : String) (c : Char) : List String := splitOnCharAux c s.data []

/-- Python `str.strip()`, via character lists. -/
def pyStrip (s : String) : String :=
  ⟨((s.data.dropWhile Char.isWhitespace).reverse.dropWhile
      Char.isWhitespace).reverse⟩

/-- Auxiliary recursion of `pySplitWs`: split into maximal non-whitespace
runs. -/
def splitWsAux : List Char → List Char → List String
  | [], cur => if cur.isEmpty then [] else [⟨cur.reverse⟩]
  | x :: rest, cur =>
    if x.isWhitespace then
      (if cur.isEmpty then [] else [⟨cur.reverse⟩]) ++ splitWsAux rest []
    else splitWsAux rest (x :: cur)

/-- Python `str.split()` with no separator: split on whitespace runs,
dropping empty pieces. -/
def pySplitWs (s : String) : List String := splitWsAux s.data []

/-! ## MD5 over Nat (content hashing in `_generate_session_id`) -/

def w32 (n : Nat) : Nat := n % 4294967296

def rotl32 (x c : Nat) : Nat := w32 ((x <<< c) + (x >>> (32 - c)))

/-- Per-round shift amounts of MD5. -/
def md5s : List Nat :=
  [7, 12, 17, 22, 7, 12, 17, 22, 7, 12, 17, 22, 7, 12, 17, 22,
   5, 9, 14, 20, 5, 9, 14, 20, 5, 9, 14, 20, 5, 9, 14, 20,
   4, 11, 16, 23, 4, 11, 16, 23, 4, 11, 16, 23, 4, 11, 16, 23,
   6, 10, 15, 21, 6, 10, 15, 21, 6, 10, 15, 21, 6, 10, 15, 21]

/-- Sine-derived round constants of MD5. -/
def md5K : List Nat :=
  [0xd76aa478, 0xe8c7b756, 0x242070db, 0xc1bdceee,
   0xf57c0faf, 0x4787c62a, 0xa8304613, 0xfd469501,
   0x698098d8, 0x8b44f7af, 0xffff5bb1, 0x895cd7be,
   0x6b901122, 0xfd987193, 0xa679438e, 0x49b40821,
   0xf61e2562, 0xc040b340, 0x265e5a51, 0xe9b6c7aa,
   0xd62f105d, 0x02441453, 0xd8a1e681, 0xe7d3fbc8,
   0x21e1cde6, 0xc33707d6, 0xf4d50d87, 0x455a14ed,
   0xa9e3e905, 0xfcefa3f8, 0x676f02d9, 0x8d2a4c8a,
   0xfffa3942, 0x8771f681, 0x6d9d6122, 0xfde5380c,
   0xa4beea44, 0x4bdecfa9, 0xf6bb4b60, 0xbebfbc70,
   0x289b7ec6, 0xeaa127fa, 0xd4ef3085, 0x04881d05,
   0xd9d4d039, 0xe6db99e5, 0x1fa27cf8, 0xc4ac5665,
   0xf4292244, 0x432aff97, 0xab9423a7, 0xfc93a039,
   0x655b59c3, 0x8f0ccc92, 0xffeff47d, 0x85845dd1,
   0x6fa87e4f, 0xfe2ce6e0, 0xa3014314, 0x4e0811a1,
   0xf7537e82, 0xbd3af235, 0x2ad7d2bb, 0xeb86d391]

/-- Little-endian 32-bit word `j` of a 64-byte chunk. -/
def leWord (b : List Nat) (j : Nat) : Nat :=
  (b.getD (4 * j) 0) + (b.getD (4 * j + 1) 0) * 256 +
  (b.getD (4 * j + 2) 0) * 65536 + (b.getD (4 * j + 3) 0) * 16777216

/-- One MD5 round on state (a, b, c, d) with message words `m`; bitwise
complement of a 32-bit word `x` is `4294967295 - x`. -/
def md5Round (m : Nat → Nat) (st : Nat × Nat × Nat × Nat) (i : Nat) :
    Nat × Nat × Nat × Nat :=
  let (a, b, c, d) := st
  let (f, g) :=
    if i < 16 then ((b &&& c) ||| ((4294967295 - b) &&& d), i)
    else if i < 32 then ((d &&& b) ||| ((4294967295 - d) &&& c), (5 * i + 1) % 16)
    else if i < 48 then (b ^^^ c ^^^ d, (3 * i + 5) % 16)
    else (c ^^^ (b ||| (4294967295 - d)), (7 * i) % 16)
  let f' := w32 (f + a + md5K.getD i 0 + m g)
  (d, w32 (b + rotl32 f' (md5s.getD i 0)), b, c)

def md5Chunk (st : Nat × Nat × Nat × Nat) (chunk : List Nat) :
    Nat × Nat × Nat × Nat :=
  let m := leWord chunk
  let (a0, b0, c0, d0) := st
  let (a, b, c, d) := (List.range 64).foldl (md5Round m) st
  (w32 (a0 + a), w32 (b0 + b), w32 (c0 + c), w32 (d0 + d))

/-- Fold over successive 64-byte chunks.  The fuel argument only bounds the
recursion (each step consumes 64 bytes); callers pass the list length, which
always suffices. -/
def md5Chunks (fuel : Nat) (bs : List Nat) (st : Nat × Nat × Nat × Nat) :
    Nat × Nat × Nat × Nat :=
  match fuel, bs with
  | 0, _ => st
  | _, [] => st
  | fuel + 1, bs => md5Chunks fuel (bs.drop 64) (md5Chunk st (bs.take 64))

/-- MD5 padding: append 0x80, zero-pad so the length is 56 mod 64, then
append the original bit length as 64-bit little-endian. -/
def md5Pad (msg : List Nat) : List Nat :=
  let padLen := (55 + 64 - msg.length % 64) % 64 + 1
  let bitLen := (msg.length * 8) % 18446744073709551616
  msg ++ (128 :: List.replicate (padLen - 1) 0) ++
    (List.range 8).map (fun i => (bitLen >>> (8 * i)) % 256)

def hexChar (n : Nat) : Char :=
  if n < 10 then Char.ofNat (48 + n) else Char.ofNat (87 + n)

/-- Little-endian hex rendering of one 32-bit word. -/
def wordHex (x : Nat) : List Char :=
  ((List.range 4).map (fun i => (x >>> (8 * i)) % 256)).flatMap
    (fun b => [hexChar (b / 16), hexChar (b % 16)])

/-- Hex digest of MD5, as Python `hashlib.md5(...).hexdigest()`. -/
def md5Hex (msg : List Nat) : String :=
  let padded := md5Pad msg
  let (a, b, c, d) :=
    md5Chunks padded.length padded (0x67452301, 0xefcdab89, 0x98badcfe, 0x10325476)
  ⟨wordHex a ++ wordHex b ++ wordHex c ++ wordHex d⟩

/-- UTF-8 encoding of a string, as Python `str.encode('utf-8')`. -/
def utf8Bytes (s : String) : List Nat :=
  s.data.flatMap (fun c =>
    let n := c.toNat
    if n < 128 then [n]
    else if n < 2048 then [192 + n / 64, 128 + n % 64]
    else if n < 65536 then [224 + n / 4096, 128 + n / 64 % 64, 128 + n % 64]
    else [240 + n / 262144, 128 + n / 4096 % 64, 128 + n / 64 % 64, 128 + n % 64])

/-! ## Text decoders (lambda-layer-1 `extract_text_content`) -/

/-- Is a UTF-8 continuation byte (0x80-0xBF)? -/
def isCont (b : Byte) : Bool := 128 ≤ b.val && b.val ≤ 191

/-- Code point of a two-byte sequence. -/
def cp2 (b0 b1 : Byte) : Nat := (b0.val - 192) * 64 + (b1.val - 128)

def cp3 (b0 b1 b2 : Byte) : Nat :=
  (b0.val - 224) * 4096 + (b1.val - 128) * 64 + (b2.val - 128)

def cp4 (b0 b1 b2 b3 : Byte) : Nat :=
  (b0.val - 240) * 262144 + (b1.val - 128) * 4096 + (b2.val - 128) * 64 + (b3.val - 128)

/-- Strict UTF-8 decoding, as Python `bytes.decode('utf-8')`: rejects
overlong encodings, surrogates and code points above U+10FFFF.  The fuel
argument only bounds recursion; each step consumes at least one byte. -/
def utf8DecodeAux : Nat → List Byte → List Char → Option (List Char)
  | _, [], acc => some acc.reverse
  | 0, _ :: _, _ => none
  | fuel + 1, b0 :: rest, acc =>
    if b0.val < 128 then utf8DecodeAux fuel rest (Char.ofNat b0.val :: acc)
    else if 194 ≤ b0.val && b0.val ≤ 223 then
      match rest with
      | b1 :: rest' =>
        if isCont b1 then utf8DecodeAux fuel rest' (Char.ofNat (cp2 b0 b1) :: acc)
        else none
      | _ => none
    else if 224 ≤ b0.val && b0.val ≤ 239 then
      match rest with
      | b1 :: b2 :: rest' =>
        let lo1 : Nat := if b0.val = 224 then 160 else 128
        let hi1 : Nat := if b0.val = 237 then 159 else 191
        if (lo1 ≤ b1.val && b1.val ≤ hi1) && isCont b2 then
          utf8DecodeAux fuel rest' (Char.ofNat (cp3 b0 b1 b2) :: acc)
        else none
      | _ => none
    else if 240 ≤ b0.val && b0.val ≤ 244 then
      match rest with
      | b1 :: b2 :: b3 :: rest' =>
        let lo1 : Nat := if b0.val = 240 then 144 else 128
        let hi1 : Nat := if b0.val = 244 then 143 else 191
        if (lo1 ≤ b1.val && b1.val ≤ hi1) && isCont b2 && isCont b3 then
          utf8DecodeAux fuel rest' (Char.ofNat (cp4 b0 b1 b2 b3) :: acc)
        else none
      | _ => none
    else none

def utf8Decode (bs : List Byte) : Option String :=
  (utf8DecodeAux bs.length bs []).map (fun cs => ⟨cs⟩)

/-- Python `bytes.decode('utf-8-sig')`: strip a UTF-8 BOM when present, then
decode as UTF-8. -/
def utf8SigDecode (bs : List Byte) : Option String :=
  utf8Decode (if bs.take 3 = [239, 187, 191] then bs.drop 3 else bs)

/-- Python `bytes.decode('latin-1')`: total, each byte is its code point. -/
def latin1Decode (bs : List Byte) : String := ⟨bs.map (fun b => Char.ofNat b.val)⟩

/-- Remapped code points of cp1252 in the 0x80-0x9F range. -/
def cp1252Table : List (Nat × Nat) :=
  [(128, 8364), (130, 8218), (131, 402), (132, 8222), (133, 8230),
   (134, 8224), (135, 8225), (136, 710), (137, 8240), (138, 352),
   (139, 8249), (140, 338), (142, 381), (145, 8216), (146, 8217),
   (147, 8220), (148, 8221), (149, 8226), (150, 8211), (151, 8212),
   (152, 732), (153, 8482), (154, 353), (155, 8250), (156, 339),
   (158, 382), (159, 376)]

/-- Python `bytes.decode('cp1252')`: bytes 0x81, 0x8D, 0x8F, 0x90, 0x9D are
undefined and make the decode fail; bytes 0x80-0x9F otherwise remap per
`cp1252Table`; all others are their own code point. -/
def cp1252DecodeByte (b : Byte) : Option Char :=
  if b.val ∈ [129, 141, 143, 144, 157] then none
  else match cp1252Table.lookup b.val with
    | some cp => some (Char.ofNat cp)
    | none => some (Char.ofNat b.val)

def cp1252Decode (bs : List Byte) : Option String :=
  (bs.mapM cp1252DecodeByte).map (fun cs => ⟨cs⟩)

/-- Python `bytes.decode('utf-8', errors='ignore')`: drop undecodable bytes.
Embedded as: decode greedily, skipping one byte on failure. -/
def utf8DecodeIgnoreAux : Nat → List Byte → List Char → List Char
  | _, [], acc => acc.reverse
  | 0, _ :: _, acc => acc.reverse
  | fuel + 1, b0 :: rest, acc =>
    if b0.val < 128 then utf8DecodeIgnoreAux fuel rest (Char.ofNat b0.val :: acc)
    else if 194 ≤ b0.val && b0.val ≤ 223 then
      match rest with
      | b1 :: rest' =>
        if isCont b1 then utf8DecodeIgnoreAux fuel rest' (Char.ofNat (cp2 b0 b1) :: acc)
        else utf8DecodeIgnoreAux fuel rest acc
      | _ => utf8DecodeIgnoreAux fuel rest acc
    else if 224 ≤ b0.val && b0.val ≤ 239 then
      match rest with
      | b1 :: b2 :: rest' =>
        let lo1 : Nat := if b0.val = 224 then 160 else 128
        let hi1 : Nat := if b0.val = 237 then 159 else 191
        if (lo1 ≤ b1.val && b1.val ≤ hi1) && isCont b2 then
          utf8DecodeIgnoreAux fuel rest' (Char.ofNat (cp3 b0 b1 b2) :: acc)
        else utf8DecodeIgnoreAux fuel rest acc
      | _ => utf8DecodeIgnoreAux fuel rest acc
    else if 240 ≤ b0.val && b0.val ≤ 244 then
      match rest with
      | b1 :: b2 :: b3 :: rest' =>
        let lo1 : Nat := if b0.val = 240 then 144 else 128
        let hi1 : Nat := if b0.val = 244 then 143 else 191
        if (lo1 ≤ b1.val && b1.val ≤ hi1) && isCont b2 && isCont b3 then
          utf8DecodeIgnoreAux fuel rest' (Char.ofNat (cp4 b0 b1 b2 b3) :: acc)
        else utf8DecodeIgnoreAux fuel rest acc
      | _ => utf8DecodeIgnoreAux fuel rest acc
    else utf8DecodeIgnoreAux fuel rest acc

def utf8DecodeIgnore (bs : List Byte) : String :=
  ⟨utf8DecodeIgnoreAux bs.length bs []⟩

/-! ## lambda-layer-1: DocumentProcessor extraction -/

/-- Outcomes of foreign-library calls made by `DocumentProcessor`. -/
structure ExtractEnv where
  /-- Whether `import PyPDF2` succeeded (module global `PDF_SUPPORT`). -/
  pdfSupport : Bool
  /-- Whether `import docx` succeeded (module global `DOCX_SUPPORT`). -/
  docxSupport : Bool
  /-- Outcome of `PyPDF2.PdfReader` on the given bytes: an exception message,
  or the per-page outcomes of `page.extract_text()` (each possibly raising). -/
  pdfPages : List Byte → Except String (List (Except String String))
  /-- Outcome of `docx.Document` on the given bytes: an exception message, or
  the paragraph texts. -/
  docxParas : List Byte → Except String (List String)
  /-- Outcome of `json.loads` on the decoded text followed by
  `json.dumps(..., indent=2)`: a `JSONDecodeError` message, or the dumped
  text together with `list(obj.keys())` when the value is a dict. -/
  jsonLoads : String → Except String (String × Option (List String))
  /-- Rendering of the `UnicodeDecodeError` raised by `bytes.decode('utf-8')`
  in the `.json` branch (it escapes to the outer handler). -/
  unicodeErrMsg : String

/-- DocumentProcessor.extract_pdf_text. -/
def extract_pdf_text (env : ExtractEnv) (pdf_bytes : List Byte) : String :=
  if !env.pdfSupport then
    "ERROR: PDF processing not available - PyPDF2 library not installed"
  else
    match env.pdfPages pdf_bytes with
    | .error e => "Error processing PDF: " ++ e
    | .ok pages =>
      let text_content := (pages.enum.filterMap (fun (p : Nat × Except String String) =>
        match p.2 with
        | .ok page_text =>
          if !(pyStrip page_text).isEmpty then
            some ("--- Page " ++ toString (p.1 + 1) ++ " ---\n" ++ page_text)
          else none
        | .error _ =>
          some ("--- Page " ++ toString (p.1 + 1) ++ " ---\n[Error extracting page content]")))
      let full_text := String.intercalate "\n\n" text_content
      if (pyStrip full_text).length < 10 then
        "WARNING: Extracted text is very short - PDF might be image-based or protected"
      else full_text

/-- DocumentProcessor.extract_docx_text. -/
def extract_docx_text (env : ExtractEnv) (docx_bytes : List Byte) : String :=
  if !env.docxSupport then
    "ERROR: Word document processing not available - python-docx library not installed"
  else
    match env.docxParas docx_bytes with
    | .error e => "Error processing Word document: " ++ e
    | .ok paras =>
      let full_text := String.intercalate "\n" (paras.filter (fun p => !(pyStrip p).isEmpty))
      if (pyStrip full_text).length < 10 then
        "WARNING: Extracted text is very short - document might be empty"
      else full_text

/-- DocumentProcessor._get_file_extension. -/
def _get_file_extension (filename : String) : String :=
  if pyContains filename '.' then "." ++ (pySplitChar filename '.').getLastD ""
  else ""

/-- The content statistics written into `extraction_result['metadata']`;
fields are `Option` because they are absent until set. -/
structure ContentMeta where
  content_length : Option Nat := none
  word_count : Option Nat := none
  line_count : Option Nat := none
  has_content : Option Bool := none
  /-- Present only in the `.json` success branch; the inner `Option` is
  Python `None` for non-dict JSON values. -/
  json_keys : Option (Option (List String)) := none
deriving DecidableEq

structure ExtractionResult where
  filename : String
  file_extension : String
  file_size : Nat
  extraction_method : String
  extraction_success : Bool
  content : String
  warnings : List String
  contentMeta : ContentMeta
deriving DecidableEq

/-- The encodings tried, in order, by the `.txt`/`.md`/`.csv` branch. -/
def textEncodings : List (String × (List Byte → Option String)) :=
  [("utf-8", utf8Decode), ("utf-8-sig", utf8SigDecode),
   ("latin-1", fun bs => some (latin1Decode bs)), ("cp1252", cp1252Decode)]

/-- The for-loop over `textEncodings`: first decode that succeeds, with its
`text_decode_{encoding}` method name. -/
def firstDecode : List (String × (List Byte → Option String)) → List Byte →
    Option (String × String)
  | [], _ => none
  | (name, dec) :: rest, bs =>
    match dec bs with
    | some s => some (s, "text_decode_" ++ name)
    | none => firstDecode rest bs

/-- Branch outcome inside the try of `extract_text_content`: content, method,
extra warnings, `json_keys`, or an uncaught exception escaping to the outer
handler. -/
def extractBranch (env : ExtractEnv) (file_bytes : List Byte)
    (file_extension : String) :
    Except String (String × String × List String × Option (Option (List String))) :=
  if pyLower file_extension = ".pdf" then
    .ok (extract_pdf_text env file_bytes, "PyPDF2", [], none)
  else if pyLower file_extension = ".docx" || pyLower file_extension = ".doc" then
    if pyLower file_extension = ".docx" then
      .ok (extract_docx_text env file_bytes, "python-docx", [], none)
    else
      .ok ("ERROR: .doc files not supported, please convert to .docx", "unknown",
        ["Legacy .doc format not supported"], none)
  else if pyLower file_extension = ".txt" || pyLower file_extension = ".md" ||
      pyLower file_extension = ".csv" then
    match firstDecode textEncodings file_bytes with
    | some (content, method) => .ok (content, method, [], none)
    | none =>
      .ok (utf8DecodeIgnore file_bytes, "text_decode_fallback",
        ["Used fallback encoding - some characters might be corrupted"], none)
  else if pyLower file_extension = ".json" then
    match utf8Decode file_bytes with
    | none => .error env.unicodeErrMsg
    | some text =>
      match env.jsonLoads text with
      | .error e => .ok ("ERROR: Invalid JSON file - " ++ e, "unknown", [], none)
      | .ok (dumped, keys) => .ok (dumped, "json_parse", [], some keys)
  else
    match utf8Decode file_bytes with
    | some content =>
      .ok (content, "generic_text",
        ["Unsupported file type " ++ file_extension ++ ", treated as text"], none)
    | none =>
      .ok (utf8DecodeIgnore file_bytes, "generic_text_fallback",
        ["Unsupported file type " ++ file_extension ++ ", used fallback text extraction"],
        none)

/-- DocumentProcessor.extract_text_content. -/
def extract_text_content (env : ExtractEnv) (file_bytes : List Byte)
    (filename : String) : ExtractionResult :=
  let file_extension := _get_file_extension filename
  let file_size := file_bytes.length
  match extractBranch env file_bytes file_extension with
  | .error e =>
    { filename := filename, file_extension := file_extension,
      file_size := file_size, extraction_method := "unknown",
      extraction_success := false,
      content := "ERROR: Failed to process file - " ++ e,
      warnings := ["Unexpected error during extraction: " ++ e],
      contentMeta := {} }
  | .ok (content, method, warnings, jsonKeys) =>
    let success := !content.isEmpty && !pyStartswith content "ERROR:"
    { filename := filename, file_extension := file_extension,
      file_size := file_size, extraction_method := method,
      extraction_success := success, content := content, warnings := warnings,
      contentMeta :=
        { content_length := some content.length,
          word_count := some (if !content.isEmpty then (pySplitWs content).length else 0),
          line_count := some (if !content.isEmpty then content.data.count '\n' + 1 else 0),
          has_content := some (!(pyStrip content).isEmpty),
          json_keys := jsonKeys } }

/-- DocumentProcessor._generate_session_id. -/
def _generate_session_id (filename content : String) (now : Nat) : String :=
  let base_name :=
    if pyContains filename '.' then ((pySplitChar filename '.').headD "")
    else filename
  let content_hash := pyTake (md5Hex (utf8Bytes content)) 8
  let timestamp := pyLastChars 6 (toString now)
  base_name ++ "_" ++ content_hash ++ "_" ++ timestamp

/-- Modelled from the spec: the session identifier as the spec words it,
"{base filename without extension}_{first 8 hex characters of the MD5 hash
of the extracted content}_{last 6 digits of the current Unix timestamp}",
where the base filename without extension keeps everything before the last
dot (the whole filename when it has none). -/
def spec_generate_session_id (filename content : String) (now : Nat) : String :=
  let base_name :=
    if pyContains filename '.' then
      String.intercalate "." ((pySplitChar filename '.').dropLast)
    else filename
  let content_hash := pyTake (md5Hex (utf8Bytes content)) 8
  let timestamp := pyLastChars 6 (toString now)
  base_name ++ "_" ++ content_hash ++ "_" ++ timestamp

/-! ## Workflow-state store (the `agent-workflow-state` DynamoDB table) -/

/-- DynamoDB attribute values that appear with two types in this code base
(`updated_at` is a number everywhere except the research stage, which writes
the request id string). -/
inductive DynVal
  | nat (n : Nat)
  | str (s : String)
deriving DecidableEq

/-- A research finding, the JSON shape requested from the model by the
research stage and produced by its fallback paths. -/
structure Finding where
  summary : String := ""
  reliability_score : String := ""
  sources : List String := []
  key_findings : List String := []
deriving DecidableEq

/-- The analysis JSON produced by the model in the analysis stage; fields are
`Option` because the model's dict may lack any of them (`.get` defaults). -/
structure AnalysisResult where
  topics : Option (List String) := none
  entities : Option (List String) := none
  themes : Option (List String) := none
  research_questions : Option (List String) := none
deriving DecidableEq

/-- One record of the `agent-workflow-state` table, with every attribute some
stage reads or writes; `Option` marks attributes that can be absent. -/
structure Item where
  workflow_stage : String := ""
  document_content : String := ""
  content_truncated : Bool := false
  full_content_length : Nat := 0
  original_filename : String := ""
  file_type : String := ""
  file_size : Nat := 0
  extraction_method : String := ""
  extraction_success : Bool := false
  extraction_warnings : List String := []
  content_metadata : ContentMeta := {}
  s3_bucket : String := ""
  s3_key : String := ""
  analysis_result : Option AnalysisResult := none
  extracted_topics : List String := []
  research_findings : Option (List (String × Finding)) := none
  final_report : Option String := none
  error_message : Option String := none
  created_at : Nat := 0
  updated_at : DynVal := .nat 0
deriving DecidableEq

abbrev Store := List (String × Item)

/-- DynamoDB `get_item` by primary key `session_id`. -/
def getItem (store : Store) (sid : String) : Option Item :=
  match store with
  | [] => none
  | p :: rest => if p.1 = sid then some p.2 else getItem rest sid

/-- DynamoDB `put_item`: replace the record wholesale, or create it. -/
def putItem (store : Store) (sid : String) (item : Item) : Store :=
  match store with
  | [] => [(sid, item)]
  | p :: rest => if p.1 = sid then (sid, item) :: rest else p :: putItem rest sid item

/-- DynamoDB `update_item` with a SET expression: update the named
attributes, creating the record from defaults when absent (upsert). -/
def updateItem (store : Store) (sid : String) (f : Item → Item) : Store :=
  match store with
  | [] => [(sid, f {})]
  | p :: rest => if p.1 = sid then (sid, f p.2) :: rest else p :: updateItem rest sid f

/-- A lambda's return value; `body` carries the message of the serialized
JSON body. -/
structure LambdaResult where
  statusCode : Nat
  body : String
deriving DecidableEq

/-- An invocation payload; `session_id` is `none` when the key is absent. -/
structure LambdaEvent where
  session_id : Option String := none
deriving DecidableEq

/-! ## lambda-layer-1: ingestion `lambda_handler` -/

namespace Ingest

/-- An entry of the S3 notification's `Records` list. -/
structure S3Record where
  eventSource : String
  bucket : String
  key : String

/-- The two accepted event shapes of the ingestion handler, plus anything
else. -/
inductive Event
  | records (rs : List S3Record)
  | direct (bucket key : String)
  | invalid

/-- Foreign-call outcomes and ambient configuration of the ingestion
lambda. -/
structure Env where
  extractEnv : ExtractEnv
  /-- Outcome of `s3.get_object(bucket, key).Body.read()`. -/
  getObject : String → String → Except String (List Byte)
  /-- Whether `table.put_item` succeeds. -/
  putOk : Bool
  /-- Outcome of `lambda.invoke` of the next stage. -/
  invoke : Except String Unit
  /-- Value of `int(time.time())`. -/
  now : Nat
  /-- `MAX_CONTENT_SIZE` (default 50000). -/
  maxContentSize : Nat := 50000

/-- File extensions accepted by the S3 trigger filter. -/
def docExtensions : List String :=
  [".pdf", ".txt", ".docx", ".doc", ".md", ".json", ".csv"]

/-- DocumentProcessor.store_document_data: returns whether `put_item`
succeeded, and the store after it. -/
def store_document_data (env : Env) (store : Store) (session_id : String)
    (er : ExtractionResult) (bucket key : String) : Bool × Store :=
  let content := er.content
  let stored_content :=
    if content.length > env.maxContentSize then pyTake content env.maxContentSize
    else content
  let content_truncated := decide (content.length > env.maxContentSize)
  if env.putOk then
    (true, putItem store session_id
      { workflow_stage := "document_processed",
        document_content := stored_content,
        content_truncated := content_truncated,
        full_content_length := content.length,
        original_filename := er.filename,
        file_type := er.file_extension,
        file_size := er.file_size,
        extraction_method := er.extraction_method,
        extraction_success := er.extraction_success,
        extraction_warnings := er.warnings,
        content_metadata := er.contentMeta,
        s3_bucket := bucket,
        s3_key := key,
        created_at := env.now,
        updated_at := .nat env.now })
  else (false, store)

/-- DocumentProcessor._update_error_state. -/
def _update_error_state (store : Store) (session_id error_message : String)
    (now : Nat) : Store :=
  updateItem store session_id (fun it =>
    { it with workflow_stage := "error_document_processing",
              error_message := some error_message,
              updated_at := .nat now })

/-- DocumentProcessor.trigger_next_stage: invoke the analysis lambda
(`NEXT_FUNCTION_NAME` default `analysis-agent`); an invocation exception is
caught and recorded through `_update_error_state`.  The returned list logs
the invocation attempt. -/
def trigger_next_stage (env : Env) (store : Store) (session_id : String) :
    Bool × Store × List String :=
  match env.invoke with
  | .ok _ => (true, store, ["analysis-agent"])
  | .error e =>
    (false,
     _update_error_state store session_id
       ("Failed to trigger analysis stage: " ++ e) env.now,
     ["analysis-agent"])

/-- One iteration of the `for record in event['Records']` loop, threading the
store and the log of downstream invocations. -/
def processS3Record (env : Env) (acc : Store × List String) (r : S3Record) :
    Store × List String :=
  if r.eventSource ≠ "aws:s3" then acc
  else if !docExtensions.any (fun ext => pyEndswith (pyLower r.key) ext) then acc
  else
    match env.getObject r.bucket r.key with
    | .error _ => acc
    | .ok file_bytes =>
      let er := extract_text_content env.extractEnv file_bytes r.key
      if !er.extraction_success then acc
      else
        let session_id := _generate_session_id r.key er.content env.now
        let (ok, store1) := store_document_data env acc.1 session_id er r.bucket r.key
        if ok then
          let (_, store2, inv2) := trigger_next_stage env store1 session_id
          (store2, acc.2 ++ inv2)
        else (store1, acc.2)

/-- The ingestion `lambda_handler`.  The third component logs the downstream
lambda invocations attempted. -/
def lambda_handler (env : Env) (event : Event) (store : Store) :
    LambdaResult × Store × List String :=
  match event with
  | .records rs =>
    let (store', inv) := rs.foldl (processS3Record env) (store, [])
    (⟨200, "Document ingestion completed"⟩, store', inv)
  | .direct bucket key =>
    match env.getObject bucket key with
    | .error e => (⟨500, e⟩, store, [])
    | .ok file_bytes =>
      let er := extract_text_content env.extractEnv file_bytes key
      let session_id := _generate_session_id key er.content env.now
      let (ok, store1) := store_document_data env store session_id er bucket key
      if ok then
        let (_, store2, inv2) := trigger_next_stage env store1 session_id
        (⟨200, "Document processed successfully"⟩, store2, inv2)
      else (⟨200, "Document ingestion completed"⟩, store1, [])
  | .invalid => (⟨400, "Invalid event format"⟩, store, [])

end Ingest

/-! ## lambda-layer-2: analysis `lambda_handler` -/

namespace Analysis

/-- Foreign-call outcomes of the analysis lambda. -/
structure Env where
  /-- Combined outcome of `invoke_bedrock_model` and the `json.loads` of its
  text: an exception message, or the parsed analysis dict. -/
  analyze : String → Except String AnalysisResult
  /-- Outcome of `lambda.invoke` of the research stage. -/
  invoke : Except String Unit
  /-- Value of `int(time.time())`. -/
  now : Nat

/-- The prompt assembled for the Bedrock call. -/
def analysisPrompt (document_content : String) : String :=
  "\n    Analyze the following document and extract:\n" ++
  "    1. Key topics (max 5)\n" ++
  "    2. Important entities (people, organizations, locations)\n" ++
  "    3. Main themes\n" ++
  "    4. Research questions that provide valuable context\n" ++
  "    \n    Document:\n    " ++ document_content ++
  "\n    \n    Respond in JSON format with keys: topics, entities, themes, research_questions\n    "

/-- update_workflow_error of the analysis lambda. -/
def update_workflow_error (store : Store) (session_id error_message : String)
    (now : Nat) : Store :=
  updateItem store session_id (fun it =>
    { it with workflow_stage := "error",
              error_message := some error_message,
              updated_at := .nat now })

/-- The analysis `lambda_handler`.  The third component logs the downstream
lambda invocations attempted. -/
def lambda_handler (env : Env) (event : LambdaEvent) (store : Store) :
    LambdaResult × Store × List String :=
  match event.session_id with
  | none => (⟨400, "Missing session_id"⟩, store, [])
  | some session_id =>
    if session_id.isEmpty then (⟨400, "Missing session_id"⟩, store, [])
    else
      match getItem store session_id with
      | none => (⟨404, "Session not found"⟩, store, [])
      | some item =>
        let document_content := item.document_content
        if document_content.isEmpty then
          (⟨400, "No document content found"⟩, store, [])
        else
          match env.analyze (analysisPrompt document_content) with
          | .error e =>
            (⟨500, e⟩,
             update_workflow_error store session_id
               ("Bedrock analysis failed: " ++ e) env.now,
             [])
          | .ok analysis_result =>
            let store1 := updateItem store session_id (fun it =>
              { it with workflow_stage := "analysis_complete",
                        analysis_result := some analysis_result,
                        extracted_topics := analysis_result.topics.getD [],
                        updated_at := .nat env.now })
            match env.invoke with
            | .ok _ => (⟨200, "Analysis complete"⟩, store1, ["research-agent"])
            | .error e =>
              (⟨200, "Analysis complete"⟩,
               update_workflow_error store1 session_id
                 ("Failed to trigger research stage: " ++ e) env.now,
               ["research-agent"])

end Analysis

/-! ## lambda-layer-3: research `lambda_handler` -/

/-- One formatted web-search result of `perform_tavily_search`; the float
relevance score is modelled as a Nat (it is only serialized into the
prompt). -/
structure SearchResult where
  title : String := ""
  url : String := ""
  content : String := ""
  score : Nat := 0
  published_date : String := ""
deriving DecidableEq

namespace Research

/-- The JSON payload posted to the Tavily search endpoint. -/
structure TavilyPayload where
  api_key : String
  query : String
  search_depth : String := "advanced"
  include_answer : Bool := true
  include_raw_content : Bool := false
  max_results : Nat := 5
  include_domains : List String := []
  exclude_domains : List String := []

/-- The two exception classes distinguished by `perform_tavily_search`. -/
inductive TavilyFailure
  | request (msg : String)
  | parse (msg : String)

/-- The fields read from a successful Tavily response body. -/
structure TavilyData where
  results : List SearchResult := []
  answer : String := ""

/-- Foreign-call outcomes of the research lambda. -/
structure Env where
  /-- `os.environ.get('TAVILY_API_KEY')`. -/
  envApiKey : Option String
  /-- Outcome of the SSM `get_parameter` fallback. -/
  ssmKey : Except String String
  /-- Outcome of `requests.post` to the Tavily endpoint plus
  `response.json()`: a request or parse exception, or the response data. -/
  httpPost : TavilyPayload → Except TavilyFailure TavilyData
  /-- Outcome of `bedrock.invoke_model` plus the response-body reads, up to
  the extracted text (`response_body["content"][0]["text"]`). -/
  bedrockText : String → Except String String
  /-- Outcome of `json.loads` on the model text: a `JSONDecodeError` message,
  or the parsed finding. -/
  parseJson : String → Except String Finding
  /-- Outcome of `lambda.invoke` of the report stage. -/
  invoke : Except String Unit
  /-- `context.aws_request_id`. -/
  awsRequestId : String

/-- get_tavily_api_key: environment variable first, then Parameter Store,
else the empty string. -/
def get_tavily_api_key (env : Env) : String :=
  let api_key := env.envApiKey.getD ""
  if !api_key.isEmpty then api_key
  else
    match env.ssmKey with
    | .ok v => v
    | .error _ => ""

/-- perform_tavily_search: raises (as `Except.error`) when no key is
configured or the request or its parsing fails; otherwise returns the
formatted results, with Tavily's own answer inserted first when present. -/
def perform_tavily_search (env : Env) (query : String) :
    Except String (List SearchResult) :=
  let api_key := get_tavily_api_key env
  if api_key.isEmpty then .error "Tavily API key not found"
  else
    match env.httpPost { api_key := api_key, query := query } with
    | .error (.request m) => .error ("Tavily API request failed: " ++ m)
    | .error (.parse m) => .error ("Failed to parse Tavily API response: " ++ m)
    | .ok data =>
      let results := data.results
      let results :=
        if !data.answer.isEmpty then
          ({ title := "Tavily AI Summary", url := "tavily://answer",
             content := data.answer, score := 1 } : SearchResult) :: results
        else results
      .ok results

/-- Rendering of `json.dumps(raw_results, indent=2)` for the prompt (modelled
up to whitespace and escaping; the prompt text only feeds the model
oracle). -/
def dumpsResults (rs : List SearchResult) : String :=
  "[" ++ String.intercalate ", " (rs.map (fun r =>
    "\x7b title: " ++ r.title ++ ", url: " ++ r.url ++ ", content: " ++
    r.content ++ ", score: " ++ toString r.score ++ ", published_date: " ++
    r.published_date ++ " \x7d")) ++ "]"

/-- The per-question summarization prompt. -/
def researchPrompt (question resultsDump : String) : String :=
  "\n            You are a research assistant. Summarize the following search results for the question:\n" ++
  "            \n            Question: " ++ question ++
  "\n            Results: " ++ resultsDump ++
  "\n            \n            Provide a factual, concise answer in JSON format:\n" ++
  "            \x7b\n              \"summary\": \"...\",\n" ++
  "              \"reliability_score\": \"High/Medium/Low\",\n" ++
  "              \"sources\": [\"url1\", \"url2\"],\n" ++
  "              \"key_findings\": [\"finding1\", \"finding2\"]\n            \x7d\n            "

/-- invoke_bedrock_model of the research lambda: a `JSONDecodeError` on the
model text is caught and becomes the parse-fallback finding; every other
exception is re-raised wrapped. -/
def invoke_bedrock_model (env : Env) (prompt : String) : Except String Finding :=
  match env.bedrockText prompt with
  | .error e => .error ("Bedrock model invocation failed: " ++ e)
  | .ok content =>
    match env.parseJson content with
    | .error _ =>
      .ok { summary := "Error parsing model response", reliability_score := "Low",
            sources := [], key_findings := [] }
    | .ok f => .ok f

/-- The body of the per-question try block: search, then validate and
summarize. -/
def questionOutcome (env : Env) (question : String) : Except String Finding :=
  match perform_tavily_search env question with
  | .error e => .error e
  | .ok raw_results =>
    invoke_bedrock_model env (researchPrompt question (dumpsResults raw_results))

/-- The finding stored when processing a question raises. -/
def fallbackFinding (e : String) : Finding :=
  { summary := "Error processing question: " ++ e, reliability_score := "Low",
    sources := [], key_findings := [] }

/-- One iteration of the per-question loop: the try body, with the except
fallback. -/
def processQuestion (env : Env) (question : String) : Finding :=
  match questionOutcome env question with
  | .ok f => f
  | .error e => fallbackFinding e

/-- Python dict assignment `findings[question] = v` on an association
list with unique keys: replace the binding when the key exists, else append
it. -/
def dictInsert (d : List (String × Finding)) (k : String) (v : Finding) :
    List (String × Finding) :=
  match d with
  | [] => [(k, v)]
  | p :: rest => if p.1 = k then (k, v) :: rest else p :: dictInsert rest k v

/-- Python dict lookup on an association list. -/
def dictLookup (d : List (String × Finding)) (k : String) : Option Finding :=
  match d with
  | [] => none
  | p :: rest => if p.1 = k then some p.2 else dictLookup rest k

/-- The keys of an association list. -/
def dictKeys (d : List (String × Finding)) : List String := d.map (fun p => p.1)

/-- `item.get('analysis_result', {}).get('research_questions', [])`. -/
def researchQuestions (item : Item) : List String :=
  match item.analysis_result with
  | none => []
  | some ar => ar.research_questions.getD []

/-- trigger_next_stage of the research lambda: its own try/except turns an
invocation exception into a 500 result. -/
def trigger_next_stage (env : Env) (next_function : String) : LambdaResult :=
  match env.invoke with
  | .ok _ => ⟨200, "Successfully triggered " ++ next_function⟩
  | .error e => ⟨500, "Failed to trigger " ++ next_function ++ ": " ++ e⟩

/-- The research `lambda_handler`.  `event['session_id']` and
`response['Item']` are bare subscripts, so their absence raises (the
`Except.error` results); the third component of a normal return logs the
downstream invocations attempted. -/
def lambda_handler (env : Env) (event : LambdaEvent) (store : Store) :
    Except String (LambdaResult × Store × List String) :=
  match event.session_id with
  | none => .error "KeyError: session_id"
  | some session_id =>
    match getItem store session_id with
    | none => .error "KeyError: Item"
    | some item =>
      let research_questions := researchQuestions item
      if research_questions.isEmpty then
        .ok (⟨400, "No research questions found"⟩, store, [])
      else
        let findings := research_questions.foldl
          (fun acc q => dictInsert acc q (processQuestion env q)) []
        let store1 := updateItem store session_id (fun it =>
          { it with workflow_stage := "research_complete",
                    research_findings := some findings,
                    updated_at := .str env.awsRequestId })
        .ok (trigger_next_stage env "report-generation-agent", store1,
             ["report-generation-agent"])

end Research

/-! ## lambda-layer-4: report `lambda_handler` -/

namespace Report

/-- Foreign-call outcomes of the report lambda. -/
structure Env where
  /-- Outcome of `invoke_bedrock_model` (invoke, body read, text field). -/
  bedrock : String → Except String String
  /-- Outcome of `s3.put_object`. -/
  s3Put : Except String Unit
  /-- Value of `int(time.time())`. -/
  now : Nat

/-- Rendering of `json.dumps(analysis_result, indent=2)` (modelled up to
whitespace and escaping; it only feeds the model oracle).  The absent record
is Python's `{}`. -/
def dumpsAnalysis (a : Option AnalysisResult) : String :=
  match a with
  | none => "\x7b\x7d"
  | some ar =>
    "\x7b topics: [" ++ String.intercalate ", " (ar.topics.getD []) ++
    "], entities: [" ++ String.intercalate ", " (ar.entities.getD []) ++
    "], themes: [" ++ String.intercalate ", " (ar.themes.getD []) ++
    "], research_questions: [" ++
    String.intercalate ", " (ar.research_questions.getD []) ++ "] \x7d"

/-- Rendering of `json.dumps(research_findings, indent=2)` (same caveats as
`dumpsAnalysis`). -/
def dumpsFindings (fs : List (String × Finding)) : String :=
  "\x7b" ++ String.intercalate ", " (fs.map (fun p =>
    p.1 ++ ": \x7b summary: " ++ p.2.summary ++ ", reliability_score: " ++
    p.2.reliability_score ++ ", sources: [" ++
    String.intercalate ", " p.2.sources ++ "], key_findings: [" ++
    String.intercalate ", " p.2.key_findings ++ "] \x7d")) ++ "\x7d"

/-- The report prompt, over the first 1000 characters of the document. -/
def reportPrompt (document_content : String) (analysis : Option AnalysisResult)
    (findings : List (String × Finding)) : String :=
  "\n    You are a professional research report writer.\n    \n" ++
  "    Create a detailed research report using the following information:\n    \n" ++
  "    - Original Document:\n    " ++ pyTake document_content 1000 ++ "...\n    \n" ++
  "    - Document Analysis:\n    " ++ dumpsAnalysis analysis ++ "\n    \n" ++
  "    - Research Findings:\n    " ++ dumpsFindings findings ++ "\n    \n" ++
  "    Structure the report with:\n    1. Executive Summary\n" ++
  "    2. Key Findings\n    3. Detailed Analysis\n    4. Supporting Research\n" ++
  "    5. Conclusions and Recommendations\n    \n" ++
  "    Write in clear, professional English.\n    "

/-- The report `lambda_handler`.  `event['session_id']` and
`response['Item']` are bare subscripts, and neither the Bedrock call nor the
S3 put is wrapped in a try, so all four raise to the caller (the
`Except.error` results).  The third component of a normal return logs the S3
`put_object` calls as (bucket, key, body). -/
def lambda_handler (env : Env) (event : LambdaEvent) (store : Store) :
    Except String (LambdaResult × Store × List (String × String × String)) :=
  match event.session_id with
  | none => .error "KeyError: session_id"
  | some session_id =>
    match getItem store session_id with
    | none => .error "KeyError: Item"
    | some item =>
      let analysis_result := item.analysis_result
      let research_findings := item.research_findings.getD []
      let document_content := item.document_content
      let report_prompt := reportPrompt document_content analysis_result research_findings
      match env.bedrock report_prompt with
      | .error e => .error e
      | .ok report_text =>
        let bucket_name := "learningawswithdadiyaharshwappnet"
        let report_key := "reports/" ++ session_id ++ "_report_" ++ toString env.now ++ ".txt"
        match env.s3Put with
        | .error e => .error e
        | .ok _ =>
          let store1 := updateItem store session_id (fun it =>
            { it with workflow_stage := "report_generated",
                      final_report := some report_text,
                      updated_at := .nat env.now })
          .ok (⟨200, "Report generated successfully"⟩, store1,
               [(bucket_name, report_key, report_text)])

end Report

/-- The designated pipeline order of the non-error workflow stages. -/
def stageRank (stage : String) : Option Nat :=
  if stage = "document_processed" then some 0
  else if stage = "analysis_complete" then some 1
  else if stage = "research_complete" then some 2
  else if stage = "report_generated" then some 3
  else none

/-! ## strands_agents/using_multiple_agents.py: `crawl_website` -/

namespace Crawl

/-- The `scrapeOptions` object of the submission payload. -/
structure ScrapeOptions where
  onlyMainContent : Bool := true
  maxAge : Nat := 172800000
  parsers : List String := ["pdf"]
  formats : List String := ["markdown"]
deriving DecidableEq

/-- The JSON body of the submission POST. -/
structure CrawlPayload where
  url : String
  sitemap : String := "include"
  crawlEntireDomain : Bool := true
  prompt : String
  scrapeOptions : ScrapeOptions := {}
deriving DecidableEq

/-- One HTTP request as issued by the tool. -/
structure HttpReq where
  method : String
  url : String
  headers : List (String × String)
  body : Option CrawlPayload := none
deriving DecidableEq

/-- The fields the tool reads from a response's JSON (`id` on submission,
`status` on retrieval); the tag stands for the rest of the payload. -/
structure RespJson where
  idField : Option String := none
  statusField : Option String := none
  tag : Nat := 0
deriving DecidableEq

/-- What the tool returns: the final response JSON, or the except-branch
error mapping `{"error": msg}`. -/
inductive Out
  | payload (j : RespJson)
  | errorDict (msg : String)
deriving DecidableEq

/-- Configuration and foreign-call outcomes of the tool. -/
structure Env where
  FIRECRAWL_API_KEY : String
  /-- Outcome of issuing the request and parsing its body with `.json()`: an
  exception message, or the parsed JSON. -/
  respond : HttpReq → Except String RespJson

/-- Requests are logged in state; an exception aborts the computation but
keeps the log. -/
abbrev M := ExceptT String (StateM (List HttpReq))

/-- Issue one HTTP request: log it, then return the parsed JSON or raise. -/
def doRequest (env : Env) (req : HttpReq) : M RespJson := do
  modify (fun log => log ++ [req])
  match env.respond req with
  | .ok j => pure j
  | .error e => throw e

/-- The submission POST request.  The header dict is written in the source as
`f"Authorization": "Bearer {FIRECRAWL_API_KEY}"`: the f prefix sits on the
key, so the value is the literal text, braces included, not an
interpolation. -/
def postRequest (url query : String) : HttpReq :=
  { method := "POST",
    url := "https://api.firecrawl.dev/v2/crawl",
    headers := [("Authorization", "Bearer \x7bFIRECRAWL_API_KEY\x7d"),
                ("Content-Type", "application/json")],
    body := some { url := url, prompt := query } }

/-- The retrieval GET request, whose header is a real f-string over the
configured key. -/
def getRequest (env : Env) (idStr : String) : HttpReq :=
  { method := "GET",
    url := "https://api.firecrawl.dev/v2/crawl/" ++ idStr,
    headers := [("Authorization", "Bearer " ++ env.FIRECRAWL_API_KEY)] }

/-- Python `str(response_json.get('id'))` as interpolated into the retrieval
URL (`str(None)` is the text "None"). -/
def crawlIdOf (j : RespJson) : String :=
  match j.idField with
  | some s => s
  | none => "None"

/-- The body of the tool's try block. -/
def crawl_body (env : Env) (url query : String) : M Out := do
  let response_json ← doRequest env (postRequest url query)
  let final ← doRequest env (getRequest env (crawlIdOf response_json))
  pure (Out.payload final)

/-- crawl_website: the whole body inside one try whose except returns the
`{"error": msg}` mapping.  The outer `Except` models an exception escaping to
the caller; the list is the log of HTTP requests issued. -/
def crawl_website (env : Env) (url query : String) :
    Except String Out × List HttpReq :=
  ((tryCatch (crawl_body env url query)
    (fun e => pure (Out.errorDict e))).run).run []

end Crawl

/-! ## Concrete fixtures used by witnesses and counterexamples -/

/-- An extraction environment whose foreign calls all fail (irrelevant for
plain-text inputs, which never consult them). -/
def cExtractEnv : ExtractEnv :=
  { pdfSupport := false, docxSupport := false,
    pdfPages := fun _ => .error "boom", docxParas := fun _ => .error "boom",
    jsonLoads := fun _ => .error "boom", unicodeErrMsg := "unicode error" }

/-- An ingestion environment that serves an empty object and where storage
and invocation succeed. -/
def cIngestEnv : Ingest.Env :=
  { extractEnv := cExtractEnv, getObject := fun _ _ => .ok [],
    putOk := true, invoke := .ok (), now := 1700000000 }

/-- An analysis environment whose model call parses to an empty dict and
whose downstream invocation succeeds. -/
def cAnalysisEnv : Analysis.Env :=
  { analyze := fun _ => .ok {}, invoke := .ok (), now := 1700000001 }

/-- A research environment with no configured Tavily key, so every search
raises and the per-question fallback path is taken. -/
def cResearchEnv : Research.Env :=
  { envApiKey := none, ssmKey := .error "denied",
    httpPost := fun _ => .error (.request "net"),
    bedrockText := fun _ => .error "bed", parseJson := fun _ => .error "parse",
    invoke := .ok (), awsRequestId := "req-1" }

/-- A report environment whose model call and S3 put succeed. -/
def cReportEnv : Report.Env :=
  { bedrock := fun _ => .ok "REPORT", s3Put := .ok (), now := 1700000002 }

/-- A crawl environment whose requests succeed with an id-less response. -/
def cCrawlEnv : Crawl.Env :=
  { FIRECRAWL_API_KEY := "K", respond := fun _ => .ok {} }

/-- A crawl environment whose requests all raise. -/
def cCrawlEnvFail : Crawl.Env :=
  { FIRECRAWL_API_KEY := "K", respond := fun _ => .error "boom" }

/-- A freshly ingested record. -/
def docItem : Item :=
  { workflow_stage := "document_processed", document_content := "doc" }

/-- A record in the terminal error state. -/
def errItem : Item := { workflow_stage := "error", document_content := "doc" }

/-- A record that already finished the pipeline. -/
def lateItem : Item :=
  { workflow_stage := "report_generated", document_content := "doc" }

/-- A record ready for the research stage. -/
def researchReadyItem : Item :=
  { workflow_stage := "analysis_complete", document_content := "doc",
    analysis_result := some { research_questions := some ["q1", "q2"] } }

/-- A record ready for the report stage. -/
def reportReadyItem : Item :=
  { workflow_stage := "research_complete", document_content := "doc",
    analysis_result := some {}, research_findings := some [] }

/-! ## Helper lemmas -/

lemma isEmpty_false_of_ne {s : String} (h : ¬ s = "") : s.isEmpty = false := by
  cases he : s.isEmpty
  · rfl
  · exact absurd ((String.isEmpty_iff s).mp he) h

lemma pyStartswith_append (s t p : String) (h : pyStartswith s p = true) :
    pyStartswith (s ++ t) p = true := by
  unfold pyStartswith at *
  rw [List.isPrefixOf_iff_prefix] at *
  rw [String.data_append]
  exact h.trans (List.prefix_append _ _)

lemma getItem_updateItem_self (store : Store) (sid : String) (f : Item → Item) :
    getItem (updateItem store sid f) sid = some (f ((getItem store sid).getD {})) := by
  induction store with
  | nil => simp [getItem, updateItem]
  | cons hd tl ih =>
    by_cases h : hd.1 = sid
    · simp [getItem, updateItem, h]
    · simp [getItem, updateItem, h, ih]

lemma getItem_putItem_self (store : Store) (sid : String) (item : Item) :
    getItem (putItem store sid item) sid = some item := by
  induction store with
  | nil => simp [getItem, putItem]
  | cons hd tl ih =>
    by_cases h : hd.1 = sid
    · simp [getItem, putItem, h]
    · simp [getItem, putItem, h, ih]

lemma analysis_missing_sid (env : Analysis.Env) (store : Store) :
    Analysis.lambda_handler env ⟨none⟩ store =
      (⟨400, "Missing session_id"⟩, store, []) := rfl

lemma analysis_empty_sid (env : Analysis.Env) (store : Store) :
    Analysis.lambda_handler env ⟨some ""⟩ store =
      (⟨400, "Missing session_id"⟩, store, []) := rfl

lemma analysis_not_found (env : Analysis.Env) (sid : String) (store : Store)
    (h1 : sid.isEmpty = false) (h2 : getItem store sid = none) :
    Analysis.lambda_handler env ⟨some sid⟩ store =
      (⟨404, "Session not found"⟩, store, []) := by
  simp [Analysis.lambda_handler, h1, h2]

lemma empty_isEmpty : ("" : String).isEmpty = true := rfl

lemma analysis_no_content (env : Analysis.Env) (sid : String) (store : Store)
    (item : Item) (h1 : sid.isEmpty = false) (h2 : getItem store sid = some item)
    (h3 : item.document_content = "") :
    Analysis.lambda_handler env ⟨some sid⟩ store =
      (⟨400, "No document content found"⟩, store, []) := by
  simp [Analysis.lambda_handler, h1, h2, h3, empty_isEmpty]

lemma research_missing_sid (env : Research.Env) (store : Store) :
    Research.lambda_handler env ⟨none⟩ store = .error "KeyError: session_id" := rfl

lemma research_not_found (env : Research.Env) (sid : String) (store : Store)
    (h : getItem store sid = none) :
    Research.lambda_handler env ⟨some sid⟩ store = .error "KeyError: Item" := by
  simp [Research.lambda_handler, h]

lemma research_no_questions (env : Research.Env) (sid : String) (store : Store)
    (item : Item) (h : getItem store sid = some item)
    (hq : Research.researchQuestions item = []) :
    Research.lambda_handler env ⟨some sid⟩ store =
      .ok (⟨400, "No research questions found"⟩, store, []) := by
  simp [Research.lambda_handler, h, hq]

lemma report_missing_sid (env : Report.Env) (store : Store) :
    Report.lambda_handler env ⟨none⟩ store = .error "KeyError: session_id" := rfl

lemma report_not_found (env : Report.Env) (sid : String) (store : Store)
    (h : getItem store sid = none) :
    Report.lambda_handler env ⟨some sid⟩ store = .error "KeyError: Item" := by
  simp [Report.lambda_handler, h]

lemma dictInsert_mem (d : List (String × Finding)) (k : String) (v : Finding)
    (p : String × Finding) (h : p ∈ Research.dictInsert d k v) :
    p = (k, v) ∨ p ∈ d := by
  induction d with
  | nil => simpa [Research.dictInsert] using h
  | cons hd tl ih =>
    by_cases hh : hd.1 = k
    · simp only [Research.dictInsert, if_pos hh, List.mem_cons] at h
      rcases h with h | h
      · exact Or.inl h
      · exact Or.inr (List.mem_cons_of_mem _ h)
    · simp only [Research.dictInsert, if_neg hh, List.mem_cons] at h
      rcases h with h | h
      · exact Or.inr (h ▸ List.mem_cons_self _ _)
      · rcases ih h with h' | h'
        · exact Or.inl h'
        · exact Or.inr (List.mem_cons_of_mem _ h')

lemma dictKeys_insert_mem (d : List (String × Finding)) (k : String) (v : Finding)
    (q : String) :
    q ∈ Research.dictKeys (Research.dictInsert d k v) ↔
      q = k ∨ q ∈ Research.dictKeys d := by
  induction d with
  | nil => simp [Research.dictInsert, Research.dictKeys]
  | cons hd tl ih =>
    by_cases hh : hd.1 = k
    · subst hh
      simp [Research.dictInsert, Research.dictKeys]
    · simp only [Research.dictInsert, if_neg hh, Research.dictKeys, List.map_cons,
        List.mem_cons] at ih ⊢
      rw [ih]
      tauto

lemma dictKeys_insert_nodup (d : List (String × Finding)) (k : String) (v : Finding)
    (h : (Research.dictKeys d).Nodup) :
    (Research.dictKeys (Research.dictInsert d k v)).Nodup := by
  induction d with
  | nil => simp [Research.dictInsert, Research.dictKeys]
  | cons hd tl ih =>
    by_cases hh : hd.1 = k
    · subst hh
      simp only [Research.dictInsert, if_pos rfl, Research.dictKeys, List.map_cons]
      simpa [Research.dictKeys] using h
    · simp only [Research.dictInsert, if_neg hh, Research.dictKeys, List.map_cons] at h ⊢
      rw [List.nodup_cons] at h ⊢
      refine ⟨fun hmem => ?_, ?_⟩
      · rcases (dictKeys_insert_mem tl k v hd.1).mp
          (by simpa [Research.dictKeys] using hmem) with h1 | h1
        · exact hh h1
        · exact h.1 (by simpa [Research.dictKeys] using h1)
      · have := ih h.2
        simpa [Research.dictKeys] using this

lemma dictLookup_eq_of_inv (d : List (String × Finding)) (q : String)
    (g : String → Finding) (hinv : ∀ p ∈ d, p.2 = g p.1)
    (hq : q ∈ Research.dictKeys d) :
    Research.dictLookup d q = some (g q) := by
  induction d with
  | nil => simp [Research.dictKeys] at hq
  | cons hd tl ih =>
    by_cases hh : hd.1 = q
    · have h2 := hinv hd (List.mem_cons_self _ _)
      simp only [Research.dictLookup, if_pos hh]
      rw [h2, hh]
    · simp only [Research.dictLookup, if_neg hh]
      refine ih (fun p hp => hinv p (List.mem_cons_of_mem _ hp)) ?_
      simp only [Research.dictKeys, List.map_cons, List.mem_cons] at hq
      rcases hq with hq | hq
      · exact absurd hq.symm hh
      · simpa [Research.dictKeys] using hq

lemma foldl_insert_inv (g : String → Finding) (qs : List String)
    (acc : List (String × Finding)) (hinv : ∀ p ∈ acc, p.2 = g p.1)
    (hnd : (Research.dictKeys acc).Nodup) :
    (∀ p ∈ qs.foldl (fun a q => Research.dictInsert a q (g q)) acc, p.2 = g p.1) ∧
    (Research.dictKeys (qs.foldl (fun a q => Research.dictInsert a q (g q)) acc)).Nodup ∧
    (∀ q, q ∈ Research.dictKeys (qs.foldl (fun a q => Research.dictInsert a q (g q)) acc) ↔
      q ∈ qs ∨ q ∈ Research.dictKeys acc) := by
  induction qs generalizing acc with
  | nil => exact ⟨hinv, hnd, fun q => by simp⟩
  | cons q0 qs' ih =>
    have hinv' : ∀ p ∈ Research.dictInsert acc q0 (g q0), p.2 = g p.1 := by
      intro p hp
      rcases dictInsert_mem acc q0 (g q0) p hp with h | h
      · rw [h]
      · exact hinv p h
    have hnd' := dictKeys_insert_nodup acc q0 (g q0) hnd
    obtain ⟨hA, hB, hC⟩ := ih (Research.dictInsert acc q0 (g q0)) hinv' hnd'
    rw [List.foldl_cons]
    refine ⟨hA, hB, fun q => ?_⟩
    rw [hC q, dictKeys_insert_mem]
    simp only [List.mem_cons]
    tauto

lemma analysis_success_stage (env : Analysis.Env) (sid : String) (store : Store)
    (item : Item) (ar : AnalysisResult) (h1 : sid.isEmpty = false)
    (h2 : getItem store sid = some item) (h3 : ¬ item.document_content = "")
    (h4 : env.analyze (Analysis.analysisPrompt item.document_content) = .ok ar)
    (h5 : env.invoke = .ok ()) :
    (getItem (Analysis.lambda_handler env ⟨some sid⟩ store).2.1 sid).map
      Item.workflow_stage = some "analysis_complete" := by
  simp [Analysis.lambda_handler, h1, h2, isEmpty_false_of_ne h3, h4, h5,
    getItem_updateItem_self]

lemma research_success_stage (env : Research.Env) (sid : String) (store : Store)
    (item : Item) (h2 : getItem store sid = some item)
    (h3 : ¬ Research.researchQuestions item = []) :
    ∃ out, Research.lambda_handler env ⟨some sid⟩ store = .ok out ∧
      (getItem out.2.1 sid).map Item.workflow_stage = some "research_complete" := by
  refine ⟨?_, ?_, ?_⟩
  · exact (Research.trigger_next_stage env "report-generation-agent",
      updateItem store sid (fun it =>
        { it with workflow_stage := "research_complete",
                  research_findings := some ((Research.researchQuestions item).foldl
                    (fun acc q => Research.dictInsert acc q (Research.processQuestion env q)) []),
                  updated_at := .str env.awsRequestId }),
      ["report-generation-agent"])
  · simp [Research.lambda_handler, h2, h3]
  · simp [getItem_updateItem_self]

lemma report_success_stage (env : Report.Env) (sid : String) (store : Store)
    (item : Item) (rpt : String) (h2 : getItem store sid = some item)
    (h4 : env.bedrock (Report.reportPrompt item.document_content
      item.analysis_result (item.research_findings.getD [])) = .ok rpt)
    (h5 : env.s3Put = .ok ()) :
    ∃ out, Report.lambda_handler env ⟨some sid⟩ store = .ok out ∧
      (getItem out.2.1 sid).map Item.workflow_stage = some "report_generated" := by
  refine ⟨?_, ?_, ?_⟩
  · exact (⟨200, "Report generated successfully"⟩,
      updateItem store sid (fun it =>
        { it with workflow_stage := "report_generated",
                  final_report := some rpt,
                  updated_at := .nat env.now }),
      [("learningawswithdadiyaharshwappnet",
        "reports/" ++ sid ++ "_report_" ++ toString env.now ++ ".txt", rpt)])
  · simp [Report.lambda_handler, h2, h4, h5]
  · simp [getItem_updateItem_self]

lemma run_doRequest_bind {α : Type} (env : Crawl.Env) (req : Crawl.HttpReq)
    (k : Crawl.RespJson → Crawl.M α) (s : List Crawl.HttpReq) :
    (((Crawl.doRequest env req >>= k).run).run s) =
      match env.respond req with
      | .error e => (.error e, s ++ [req])
      | .ok j => (((k j).run).run (s ++ [req])) := by
  cases h : env.respond req with
  | error e =>
    simp only [Crawl.doRequest, h]
    rfl
  | ok j =>
    simp only [Crawl.doRequest, h]
    rfl

lemma run_tryCatch {α : Type} (m : Crawl.M α) (h : String → Crawl.M α)
    (s : List Crawl.HttpReq) :
    (((tryCatch m h).run).run s) =
      match ((m.run).run s) with
      | (.error e, log) => (((h e).run).run log)
      | (.ok a, log) => (.ok a, log) := by
  simp only [tryCatch, tryCatchThe, MonadExceptOf.tryCatch, ExceptT.tryCatch,
    ExceptT.run_mk, StateT.run_bind]
  simp only [ExceptT.run]
  cases hr : StateT.run m s with
  | mk fst snd =>
    cases fst with
    | error e => rfl
    | ok a => rfl

lemma crawl_body_run (env : Crawl.Env) (u q : String) :
    ((Crawl.crawl_body env u q).run).run [] =
      match env.respond (Crawl.postRequest u q) with
      | .error e => (.error e, [Crawl.postRequest u q])
      | .ok j =>
        match env.respond (Crawl.getRequest env (Crawl.crawlIdOf j)) with
        | .error e =>
          (.error e, [Crawl.postRequest u q, Crawl.getRequest env (Crawl.crawlIdOf j)])
        | .ok f =>
          (.ok (Crawl.Out.payload f),
           [Crawl.postRequest u q, Crawl.getRequest env (Crawl.crawlIdOf j)]) := by
  unfold Crawl.crawl_body
  rw [run_doRequest_bind]
  cases h1 : env.respond (Crawl.postRequest u q) with
  | error e => rfl
  | ok j =>
    show ((Crawl.doRequest env (Crawl.getRequest env (Crawl.crawlIdOf j)) >>=
        fun final => (pure (Crawl.Out.payload final) : Crawl.M Crawl.Out)).run).run
        ([] ++ [Crawl.postRequest u q]) =
      match env.respond (Crawl.getRequest env (Crawl.crawlIdOf j)) with
      | .error e =>
        (.error e, [Crawl.postRequest u q, Crawl.getRequest env (Crawl.crawlIdOf j)])
      | .ok f =>
        (.ok (Crawl.Out.payload f),
         [Crawl.postRequest u q, Crawl.getRequest env (Crawl.crawlIdOf j)])
    rw [run_doRequest_bind]
    cases h2 : env.respond (Crawl.getRequest env (Crawl.crawlIdOf j)) with
    | error e => rfl
    | ok f => rfl

lemma crawl_website_run (env : Crawl.Env) (u q : String) :
    Crawl.crawl_website env u q =
      match ((Crawl.crawl_body env u q).run).run [] with
      | (.error e, log) => (.ok (Crawl.Out.errorDict e), log)
      | (.ok a, log) => (.ok a, log) := by
  unfold Crawl.crawl_website
  rw [run_tryCatch]
  cases hb : ((Crawl.crawl_body env u q).run).run [] with
  | mk fst snd => cases fst <;> rfl

/-! ## Claims -/

/-- Claim C5: for every file fed to text extraction, the resulting
`extraction_success` flag is true if and only if the resulting content
string is non-empty and does not begin with the literal prefix "ERROR:"
(warning-prefixed results count as successful; the unexpected-exception path
always yields false). -/
theorem c5_extraction_success_iff (env : ExtractEnv) (bs : List Byte)
    (filename : String) :
    (extract_text_content env bs filename).extraction_success =
      (!(extract_text_content env bs filename).content.isEmpty &&
       !pyStartswith (extract_text_content env bs filename).content "ERROR:") := by
  unfold extract_text_content
  cases hb : extractBranch env bs (_get_file_extension filename) with
  | error e =>
    have h := pyStartswith_append "ERROR: Failed to process file - " e "ERROR:"
      (by decide)
    simp [hb, h]
  | ok t =>
    obtain ⟨c, m, w, jk⟩ := t
    simp [hb]

lemma firstDecode_total (bs : List Byte) :
    ∃ c enc, firstDecode textEncodings bs = some (c, "text_decode_" ++ enc) ∧
      (enc = "utf-8" ∨ enc = "utf-8-sig" ∨ enc = "latin-1") := by
  cases h1 : utf8Decode bs with
  | some s =>
    exact ⟨s, "utf-8", by simp [firstDecode, textEncodings, h1], Or.inl rfl⟩
  | none =>
    cases h2 : utf8SigDecode bs with
    | some s =>
      exact ⟨s, "utf-8-sig", by simp [firstDecode, textEncodings, h1, h2],
        Or.inr (Or.inl rfl)⟩
    | none =>
      exact ⟨latin1Decode bs, "latin-1",
        by simp [firstDecode, textEncodings, h1, h2], Or.inr (Or.inr rfl)⟩

/-- Claim C10: on the `.txt`/`.md`/`.csv` path the four-encoding loop always
succeeds by the Latin-1 attempt at the latest (Latin-1 decoding is total), so
the fallback branch and its warning are unreachable and the recorded method
is one of text_decode_utf-8, text_decode_utf-8-sig, text_decode_latin-1. -/
theorem c10_no_fallback (env : ExtractEnv) (bs : List Byte) (filename : String)
    (h : pyLower (_get_file_extension filename) = ".txt" ∨
         pyLower (_get_file_extension filename) = ".md" ∨
         pyLower (_get_file_extension filename) = ".csv") :
    ((extract_text_content env bs filename).extraction_method = "text_decode_utf-8" ∨
     (extract_text_content env bs filename).extraction_method = "text_decode_utf-8-sig" ∨
     (extract_text_content env bs filename).extraction_method = "text_decode_latin-1") ∧
    (extract_text_content env bs filename).extraction_method ≠ "text_decode_fallback" ∧
    "Used fallback encoding - some characters might be corrupted" ∉
      (extract_text_content env bs filename).warnings := by
  obtain ⟨c, enc, hfd, henc⟩ := firstDecode_total bs
  have e1 : ("text_decode_" ++ "utf-8" : String) = "text_decode_utf-8" := rfl
  have e2 : ("text_decode_" ++ "utf-8-sig" : String) = "text_decode_utf-8-sig" := rfl
  have e3 : ("text_decode_" ++ "latin-1" : String) = "text_decode_latin-1" := rfl
  rcases henc with he | he | he <;> subst he <;> rcases h with h | h | h <;>
    simp [extract_text_content, extractBranch, h, hfd, e1, e2, e3]

/-- Witness for C10 at a concrete non-UTF-8 text file. -/
theorem c10_no_fallback_witness :
    ((extract_text_content cExtractEnv [255] "notes.txt").extraction_method =
        "text_decode_utf-8" ∨
     (extract_text_content cExtractEnv [255] "notes.txt").extraction_method =
        "text_decode_utf-8-sig" ∨
     (extract_text_content cExtractEnv [255] "notes.txt").extraction_method =
        "text_decode_latin-1") ∧
    (extract_text_content cExtractEnv [255] "notes.txt").extraction_method ≠
      "text_decode_fallback" ∧
    "Used fallback encoding - some characters might be corrupted" ∉
      (extract_text_content cExtractEnv [255] "notes.txt").warnings :=
  c10_no_fallback cExtractEnv [255] "notes.txt" (Or.inl (by decide))

set_option maxRecDepth 10000 in
/-- Counterexample to claim C6: for a filename with two dots the generated
identifier keeps only the part before the first dot, not the base filename
without extension, so it differs from the spec's format. -/
theorem c6_counterexample :
    _generate_session_id "report.v2.txt" "x" 1700000000 ≠
      spec_generate_session_id "report.v2.txt" "x" 1700000000 := by decide

/-- Claim C6 as amended: for filenames with at most one dot the generated
session identifier matches the spec's
"{base without extension}_{md5(content)[:8]}_{last 6 timestamp digits}"
format; in general the code uses the part before the first dot as base. -/
theorem c6_amended (filename content : String) (now : Nat)
    (h : (pySplitChar filename '.').length = 2 ∨
         pyContains filename '.' = false) :
    _generate_session_id filename content now =
      spec_generate_session_id filename content now := by
  unfold _generate_session_id spec_generate_session_id
  rcases h with h | h
  · obtain ⟨a, b, hab⟩ := List.length_eq_two.mp h
    by_cases hc : pyContains filename '.'
    · simp [hc, hab, String.intercalate, String.intercalate.go]
    · simp [hc]
  · simp [h]

set_option maxRecDepth 10000 in
/-- Witness for the amended C6 at a single-dot filename. -/
theorem c6_amended_witness :
    _generate_session_id "doc.txt" "hi" 1712345678 =
      spec_generate_session_id "doc.txt" "hi" 1712345678 :=
  c6_amended "doc.txt" "hi" 1712345678 (Or.inl (by decide))

/-- Claim C4: the Analysis Stage returns a 400 "Missing session_id" result
when the payload lacks a (non-empty) session id, a 404 "Session not found"
result when no record exists, and a 400 "No document content found" result
when the stored content is empty; in all three cases the store is unchanged
and no downstream invocation happens. -/
theorem c4_analysis_guards :
    (∀ (env : Analysis.Env) (evt : LambdaEvent) (store : Store),
      evt.session_id = none ∨ evt.session_id = some "" →
      Analysis.lambda_handler env evt store =
        (⟨400, "Missing session_id"⟩, store, [])) ∧
    (∀ (env : Analysis.Env) (sid : String) (store : Store),
      sid.isEmpty = false → getItem store sid = none →
      Analysis.lambda_handler env ⟨some sid⟩ store =
        (⟨404, "Session not found"⟩, store, [])) ∧
    (∀ (env : Analysis.Env) (sid : String) (store : Store) (item : Item),
      sid.isEmpty = false → getItem store sid = some item →
      item.document_content = "" →
      Analysis.lambda_handler env ⟨some sid⟩ store =
        (⟨400, "No document content found"⟩, store, [])) := by
  refine ⟨?_, ?_, ?_⟩
  · rintro env evt store (h | h) <;> rw [show evt = ⟨evt.session_id⟩ from rfl, h]
    · exact analysis_missing_sid env store
    · exact analysis_empty_sid env store
  · exact fun env sid store h1 h2 => analysis_not_found env sid store h1 h2
  · exact fun env sid store item h1 h2 h3 =>
      analysis_no_content env sid store item h1 h2 h3

/-- Witness for C4 at concrete payloads and stores. -/
theorem c4_analysis_guards_witness :
    Analysis.lambda_handler cAnalysisEnv ⟨none⟩ [] =
      (⟨400, "Missing session_id"⟩, [], []) ∧
    Analysis.lambda_handler cAnalysisEnv ⟨some "missing"⟩ [] =
      (⟨404, "Session not found"⟩, [], []) ∧
    Analysis.lambda_handler cAnalysisEnv ⟨some "s"⟩ [("s", {})] =
      (⟨400, "No document content found"⟩, [("s", {})], []) :=
  ⟨c4_analysis_guards.1 cAnalysisEnv ⟨none⟩ [] (Or.inl rfl),
   c4_analysis_guards.2.1 cAnalysisEnv "missing" [] (by decide) rfl,
   c4_analysis_guards.2.2 cAnalysisEnv "s" [("s", {})] {} (by decide) rfl rfl⟩

/-- Counterexample to claim C3: the Research Stage does not tolerate a
missing session id — `event['session_id']` raises a KeyError (modelled as
the `Except.error` return) instead of producing a "missing data" error
result. -/
theorem c3_counterexample :
    Research.lambda_handler cResearchEnv ⟨none⟩ [] =
      .error "KeyError: session_id" := rfl

/-- Claim C3 as amended: the Analysis Stage returns descriptive error
results for a missing session id, a missing record and empty content; the
Research Stage raises KeyError for a missing session id or record but
returns an error result when the research questions are empty; the Report
Stage raises KeyError for a missing session id or record. -/
theorem c3_amended :
    (∀ (env : Analysis.Env) (store : Store),
      Analysis.lambda_handler env ⟨none⟩ store =
        (⟨400, "Missing session_id"⟩, store, [])) ∧
    (∀ (env : Analysis.Env) (sid : String) (store : Store),
      sid.isEmpty = false → getItem store sid = none →
      Analysis.lambda_handler env ⟨some sid⟩ store =
        (⟨404, "Session not found"⟩, store, [])) ∧
    (∀ (env : Analysis.Env) (sid : String) (store : Store) (item : Item),
      sid.isEmpty = false → getItem store sid = some item →
      item.document_content = "" →
      Analysis.lambda_handler env ⟨some sid⟩ store =
        (⟨400, "No document content found"⟩, store, [])) ∧
    (∀ (env : Research.Env) (store : Store),
      Research.lambda_handler env ⟨none⟩ store = .error "KeyError: session_id") ∧
    (∀ (env : Research.Env) (sid : String) (store : Store),
      getItem store sid = none →
      Research.lambda_handler env ⟨some sid⟩ store = .error "KeyError: Item") ∧
    (∀ (env : Research.Env) (sid : String) (store : Store) (item : Item),
      getItem store sid = some item → Research.researchQuestions item = [] →
      Research.lambda_handler env ⟨some sid⟩ store =
        .ok (⟨400, "No research questions found"⟩, store, [])) ∧
    (∀ (env : Report.Env) (store : Store),
      Report.lambda_handler env ⟨none⟩ store = .error "KeyError: session_id") ∧
    (∀ (env : Report.Env) (sid : String) (store : Store),
      getItem store sid = none →
      Report.lambda_handler env ⟨some sid⟩ store = .error "KeyError: Item") :=
  ⟨analysis_missing_sid, analysis_not_found, analysis_no_content,
   research_missing_sid, research_not_found, research_no_questions,
   report_missing_sid, report_not_found⟩

/-- Witness for the amended C3 at concrete payloads and stores. -/
theorem c3_amended_witness :
    Analysis.lambda_handler cAnalysisEnv ⟨some "nope"⟩ [] =
      (⟨404, "Session not found"⟩, [], []) ∧
    Analysis.lambda_handler cAnalysisEnv ⟨some "t"⟩ [("t", {})] =
      (⟨400, "No document content found"⟩, [("t", {})], []) ∧
    Research.lambda_handler cResearchEnv ⟨some "nope"⟩ [] =
      .error "KeyError: Item" ∧
    Research.lambda_handler cResearchEnv ⟨some "t"⟩ [("t", {})] =
      .ok (⟨400, "No research questions found"⟩, [("t", {})], []) ∧
    Report.lambda_handler cReportEnv ⟨some "nope"⟩ [] = .error "KeyError: Item" :=
  ⟨c3_amended.2.1 cAnalysisEnv "nope" [] (by decide) rfl,
   c3_amended.2.2.1 cAnalysisEnv "t" [("t", {})] {} (by decide) rfl rfl,
   c3_amended.2.2.2.2.1 cResearchEnv "nope" [] rfl,
   c3_amended.2.2.2.2.2.1 cResearchEnv "t" [("t", {})] {} rfl rfl,
   c3_amended.2.2.2.2.2.2.2 cReportEnv "nope" [] rfl⟩

set_option maxRecDepth 10000 in
/-- Counterexample to claim C2: in direct-invocation mode the handler does
not check `extraction_success` — for an empty `.txt` object (extraction
fails: empty content) it still stores a workflow record and still invokes
the Analysis Stage. -/
theorem c2_counterexample :
    (extract_text_content cExtractEnv [] "doc.txt").extraction_success = false ∧
    (Ingest.lambda_handler cIngestEnv (.direct "bucket" "doc.txt") []).2.1 ≠ [] ∧
    (Ingest.lambda_handler cIngestEnv (.direct "bucket" "doc.txt") []).2.2 =
      ["analysis-agent"] := by decide

/-- Claim C2 as amended: in object-storage notification mode an object whose
extraction did not succeed is skipped — the store is unchanged and the
Analysis Stage is not invoked; direct-invocation mode stores the record and
invokes the Analysis Stage regardless of extraction success. -/
theorem c2_amended (env : Ingest.Env) (bucket key : String) (store : Store)
    (bs : List Byte) (hget : env.getObject bucket key = .ok bs)
    (hfail : (extract_text_content env.extractEnv bs key).extraction_success = false) :
    Ingest.lambda_handler env (.records [⟨"aws:s3", bucket, key⟩]) store =
      (⟨200, "Document ingestion completed"⟩, store, []) := by
  simp only [Ingest.lambda_handler, List.foldl_cons, List.foldl_nil]
  by_cases hf : Ingest.docExtensions.any (fun ext => pyEndswith (pyLower key) ext)
  · simp [Ingest.processS3Record, hf, hget, hfail]
  · simp [Ingest.processS3Record, hf]

set_option maxRecDepth 10000 in
/-- Witness for the amended C2: a notification for an empty `.txt` object
leaves the store unchanged and invokes nothing. -/
theorem c2_amended_witness :
    Ingest.lambda_handler cIngestEnv (.records [⟨"aws:s3", "bucket", "doc.txt"⟩]) [] =
      (⟨200, "Document ingestion completed"⟩, [], []) :=
  c2_amended cIngestEnv "bucket" "doc.txt" [] [] rfl (by decide)

/-- Counterexample to claim C7: no stage reads `workflow_stage` before
writing, so re-running the Analysis Stage on a record in the terminal
"error" state moves it back to "analysis_complete" (a non-error state), and
re-running it on a "report_generated" record regresses the stage. -/
theorem c7_counterexample :
    errItem.workflow_stage = "error" ∧
    (getItem (Analysis.lambda_handler cAnalysisEnv ⟨some "s"⟩
        [("s", errItem)]).2.1 "s").map Item.workflow_stage =
      some "analysis_complete" ∧
    lateItem.workflow_stage = "report_generated" ∧
    (getItem (Analysis.lambda_handler cAnalysisEnv ⟨some "s"⟩
        [("s", lateItem)]).2.1 "s").map Item.workflow_stage =
      some "analysis_complete" ∧
    (∃ r1 r2, stageRank "analysis_complete" = some r1 ∧
      stageRank "report_generated" = some r2 ∧ r1 < r2) ∧
    stageRank "error" = none :=
  ⟨rfl, by decide, rfl, by decide, ⟨1, 3, rfl, rfl, by decide⟩, rfl⟩

/-- Claim C7 as amended: each stage execution that completes writes its
designated output stage regardless of the record's current stage —
analysis_complete, research_complete, report_generated, whose ranks strictly
increase after document_processed, while the error stages carry no rank — so
the stage only advances when stages run in the designated pipeline order,
and out-of-order re-invocation can overwrite any stage, including the error
states. -/
theorem c7_amended :
    (∀ (env : Analysis.Env) (sid : String) (store : Store) (item : Item)
      (ar : AnalysisResult), sid.isEmpty = false →
      getItem store sid = some item → ¬ item.document_content = "" →
      env.analyze (Analysis.analysisPrompt item.document_content) = .ok ar →
      env.invoke = .ok () →
      (getItem (Analysis.lambda_handler env ⟨some sid⟩ store).2.1 sid).map
        Item.workflow_stage = some "analysis_complete") ∧
    (∀ (env : Research.Env) (sid : String) (store : Store) (item : Item),
      getItem store sid = some item → ¬ Research.researchQuestions item = [] →
      ∃ out, Research.lambda_handler env ⟨some sid⟩ store = .ok out ∧
        (getItem out.2.1 sid).map Item.workflow_stage = some "research_complete") ∧
    (∀ (env : Report.Env) (sid : String) (store : Store) (item : Item)
      (rpt : String), getItem store sid = some item →
      env.bedrock (Report.reportPrompt item.document_content
        item.analysis_result (item.research_findings.getD [])) = .ok rpt →
      env.s3Put = .ok () →
      ∃ out, Report.lambda_handler env ⟨some sid⟩ store = .ok out ∧
        (getItem out.2.1 sid).map Item.workflow_stage = some "report_generated") ∧
    (stageRank "document_processed" = some 0 ∧
     stageRank "analysis_complete" = some 1 ∧
     stageRank "research_complete" = some 2 ∧
     stageRank "report_generated" = some 3 ∧
     stageRank "error" = none ∧ stageRank "error_document_processing" = none) :=
  ⟨analysis_success_stage, research_success_stage, report_success_stage,
   rfl, rfl, rfl, rfl, rfl, rfl⟩

/-- Witness for the amended C7: one successful run of each stage at concrete
inputs. -/
theorem c7_amended_witness :
    ((getItem (Analysis.lambda_handler cAnalysisEnv ⟨some "s"⟩
        [("s", docItem)]).2.1 "s").map Item.workflow_stage =
      some "analysis_complete") ∧
    (∃ out, Research.lambda_handler cResearchEnv ⟨some "s"⟩
        [("s", researchReadyItem)] = .ok out ∧
      (getItem out.2.1 "s").map Item.workflow_stage = some "research_complete") ∧
    (∃ out, Report.lambda_handler cReportEnv ⟨some "s"⟩
        [("s", reportReadyItem)] = .ok out ∧
      (getItem out.2.1 "s").map Item.workflow_stage = some "report_generated") :=
  ⟨c7_amended.1 cAnalysisEnv "s" [("s", docItem)] docItem {} (by decide) rfl
      (by decide) rfl rfl,
   c7_amended.2.1 cResearchEnv "s" [("s", researchReadyItem)] researchReadyItem
      rfl (by decide),
   c7_amended.2.2.1 cReportEnv "s" [("s", reportReadyItem)] reportReadyItem
      "REPORT" rfl rfl rfl⟩

/-- Claim C8: the crawl tool never raises to its caller — for every
environment the run result is `Except.ok`, and an exception in the
submission call or in the retrieval call is converted into the
`{"error": msg}` mapping. -/
theorem c8_crawl_never_raises (env : Crawl.Env) (u q : String) :
    (∃ out, (Crawl.crawl_website env u q).1 = .ok out) ∧
    (∀ e, env.respond (Crawl.postRequest u q) = .error e →
      Crawl.crawl_website env u q =
        (.ok (Crawl.Out.errorDict e), [Crawl.postRequest u q])) ∧
    (∀ j e, env.respond (Crawl.postRequest u q) = .ok j →
      env.respond (Crawl.getRequest env (Crawl.crawlIdOf j)) = .error e →
      Crawl.crawl_website env u q =
        (.ok (Crawl.Out.errorDict e),
         [Crawl.postRequest u q, Crawl.getRequest env (Crawl.crawlIdOf j)])) := by
  refine ⟨?_, ?_, ?_⟩
  · cases h1 : env.respond (Crawl.postRequest u q) with
    | error e =>
      exact ⟨Crawl.Out.errorDict e,
        by simp [crawl_website_run, crawl_body_run, h1]⟩
    | ok j =>
      cases h2 : env.respond (Crawl.getRequest env (Crawl.crawlIdOf j)) with
      | error e =>
        exact ⟨Crawl.Out.errorDict e,
          by simp [crawl_website_run, crawl_body_run, h1, h2]⟩
      | ok f =>
        exact ⟨Crawl.Out.payload f,
          by simp [crawl_website_run, crawl_body_run, h1, h2]⟩
  · intro e h1
    simp [crawl_website_run, crawl_body_run, h1]
  · intro j e h1 h2
    simp [crawl_website_run, crawl_body_run, h1, h2]

/-- Witness for C8: an unreachable endpoint yields the error mapping, not an
exception. -/
theorem c8_crawl_never_raises_witness :
    Crawl.crawl_website cCrawlEnvFail "https://example.com" "find pricing" =
      (.ok (Crawl.Out.errorDict "boom"),
       [Crawl.postRequest "https://example.com" "find pricing"]) :=
  (c8_crawl_never_raises cCrawlEnvFail "https://example.com" "find pricing").2.1
    "boom" rfl

/-- Claim C9 (code bug): the submission POST carries the literal header text
"Bearer {FIRECRAWL_API_KEY}" — the stray f prefix sits on the dict key, not
the value — while only the retrieval GET carries "Bearer " followed by the
configured key. -/
theorem c9_post_header_literal :
    (Crawl.crawl_website cCrawlEnv "https://example.com" "find pricing").2 =
      [Crawl.postRequest "https://example.com" "find pricing",
       Crawl.getRequest cCrawlEnv "None"] ∧
    (Crawl.postRequest "https://example.com" "find pricing").headers.lookup
      "Authorization" = some "Bearer \x7bFIRECRAWL_API_KEY\x7d" ∧
    (Crawl.getRequest cCrawlEnv "None").headers.lookup "Authorization" =
      some ("Bearer " ++ cCrawlEnv.FIRECRAWL_API_KEY) ∧
    ¬ ((Crawl.postRequest "https://example.com" "find pricing").headers.lookup
      "Authorization" = some ("Bearer " ++ cCrawlEnv.FIRECRAWL_API_KEY)) := by
  decide

/-- Claim C1: for a session whose analysis produced a non-empty research
question list, the Research Stage stores exactly one finding per question —
the per-question try/except turns a raised search or summarize exception
into the fallback finding while the other questions still get their result —
and still moves the record to research_complete and still invokes the
Report Generation Stage. -/
theorem c1_research_findings (env : Research.Env) (evt : LambdaEvent)
    (store : Store) (sid : String) (item : Item) (qs : List String)
    (hs : evt.session_id = some sid) (hi : getItem store sid = some item)
    (hq : Research.researchQuestions item = qs) (hne : qs ≠ []) :
    ∃ res store1 fs,
      Research.lambda_handler env evt store =
        .ok (res, store1, ["report-generation-agent"]) ∧
      (getItem store1 sid).map Item.workflow_stage = some "research_complete" ∧
      (getItem store1 sid).bind Item.research_findings = some fs ∧
      (Research.dictKeys fs).Nodup ∧
      (∀ q, q ∈ Research.dictKeys fs ↔ q ∈ qs) ∧
      (∀ q, q ∈ qs →
        Research.dictLookup fs q = some (Research.processQuestion env q)) ∧
      (∀ q e, q ∈ qs → Research.questionOutcome env q = .error e →
        Research.dictLookup fs q = some (Research.fallbackFinding e)) := by
  subst hq
  have hq' : (Research.researchQuestions item).isEmpty = false := by
    simpa [List.isEmpty_iff] using hne
  obtain ⟨hA, hB, hC⟩ := foldl_insert_inv (Research.processQuestion env)
    (Research.researchQuestions item) [] (by simp) (by simp [Research.dictKeys])
  have hmem : ∀ q, q ∈ Research.dictKeys ((Research.researchQuestions item).foldl
      (fun a q => Research.dictInsert a q (Research.processQuestion env q)) []) ↔
      q ∈ Research.researchQuestions item := by
    intro q
    rw [hC q]
    simp [Research.dictKeys]
  have hlook : ∀ q, q ∈ Research.researchQuestions item →
      Research.dictLookup ((Research.researchQuestions item).foldl
        (fun a q => Research.dictInsert a q (Research.processQuestion env q)) []) q =
      some (Research.processQuestion env q) := by
    intro q hqm
    exact dictLookup_eq_of_inv _ q (Research.processQuestion env) hA
      ((hmem q).mpr hqm)
  refine ⟨Research.trigger_next_stage env "report-generation-agent",
    updateItem store sid (fun it =>
      { it with workflow_stage := "research_complete",
                research_findings := some ((Research.researchQuestions item).foldl
                  (fun acc q => Research.dictInsert acc q
                    (Research.processQuestion env q)) []),
                updated_at := .str env.awsRequestId }),
    (Research.researchQuestions item).foldl
      (fun acc q => Research.dictInsert acc q (Research.processQuestion env q)) [],
    ?_, ?_, ?_, hB, hmem, hlook, ?_⟩
  · simp [Research.lambda_handler, hs, hi, hq']
  · simp [getItem_updateItem_self]
  · simp [getItem_updateItem_self]
  · intro q e hqm hout
    rw [hlook q hqm]
    simp [Research.processQuestion, hout]

/-- Witness for C1 at a concrete two-question session whose searches all
raise. -/
theorem c1_research_findings_witness :
    ∃ res store1 fs,
      Research.lambda_handler cResearchEnv ⟨some "s"⟩ [("s", researchReadyItem)] =
        .ok (res, store1, ["report-generation-agent"]) ∧
      (getItem store1 "s").map Item.workflow_stage = some "research_complete" ∧
      (getItem store1 "s").bind Item.research_findings = some fs ∧
      (Research.dictKeys fs).Nodup ∧
      (∀ q, q ∈ Research.dictKeys fs ↔ q ∈ ["q1", "q2"]) ∧
      (∀ q, q ∈ ["q1", "q2"] →
        Research.dictLookup fs q = some (Research.processQuestion cResearchEnv q)) ∧
      (∀ q e, q ∈ ["q1", "q2"] →
        Research.questionOutcome cResearchEnv q = .error e →
        Research.dictLookup fs q = some (Research.fallbackFinding e)) :=
  c1_research_findings cResearchEnv ⟨some "s"⟩ [("s", researchReadyItem)] "s"
    researchReadyItem ["q1", "q2"] rfl rfl rfl (by decide)
